import Mathlib

/-!
Verification of the access-control and abuse-prevention core of the openBank
backend: the RBAC engine (`src/core/rbac.rs`), the sliding-window rate limiter
(`src/core/rate_limit.rs`) and the account-security service
(`src/core/security.rs`), shallowly embedded as executable Lean definitions.
Rust `HashSet`/`Vec` collections are embedded as lists (all the verified
properties are membership- or existence-based, so iteration order is
irrelevant), `Uuid` as `Nat`, instants and durations as natural numbers of
seconds (rate limiter) or integers of minutes (account lockout).
-/

namespace OpenBank

/-! ### RBAC data model, from `src/core/rbac.rs` -/

/-- System roles with hierarchical permissions (`enum Role`). -/
inductive Role where
  | SuperAdmin
  | Admin
  | Developer
  | ReadOnly
  | Support
  | Auditor
deriving DecidableEq, Repr

/-- All roles this role inherits permissions from (`Role::get_inherited_roles`). -/
def Role.get_inherited_roles : Role → List Role
  | .SuperAdmin => [.Admin, .Developer, .ReadOnly, .Support, .Auditor]
  | .Admin => [.Developer, .ReadOnly, .Support]
  | .Developer => [.ReadOnly]
  | .Support => [.ReadOnly]
  | .Auditor => [.ReadOnly]
  | .ReadOnly => []

/-- A specific permission (`struct Permission`): resource, action and an
optional ordered map of conditions (the Rust `BTreeMap` embedded as an
association list). -/
structure Permission where
  resource : String
  action : String
  conditions : Option (List (String × String))
deriving DecidableEq, Repr

/-- `Permission::new`: a permission with no conditions. -/
def Permission.new (resource action : String) : Permission :=
  { resource := resource, action := action, conditions := none }

/-- Permissions directly assigned to a role, no inheritance
(`Role::get_direct_permissions`). -/
def Role.get_direct_permissions : Role → List Permission
  | .SuperAdmin =>
      [Permission.new "system" "manage",
       Permission.new "users" "delete",
       Permission.new "developers" "suspend",
       Permission.new "audit" "configure"]
  | .Admin =>
      [Permission.new "developers" "create",
       Permission.new "developers" "update",
       Permission.new "developers" "read",
       Permission.new "projects" "manage",
       Permission.new "audit" "read",
       Permission.new "system" "monitor"]
  | .Developer =>
      [Permission.new "projects" "create",
       Permission.new "projects" "update_own",
       Permission.new "projects" "delete_own",
       Permission.new "tokens" "generate",
       Permission.new "tokens" "refresh",
       Permission.new "api" "access",
       Permission.new "profile" "update_own"]
  | .Support =>
      [Permission.new "developers" "read",
       Permission.new "projects" "read",
       Permission.new "tokens" "read",
       Permission.new "support" "assist"]
  | .Auditor =>
      [Permission.new "audit" "read",
       Permission.new "compliance" "report",
       Permission.new "logs" "read",
       Permission.new "security" "monitor"]
  | .ReadOnly =>
      [Permission.new "profile" "read_own",
       Permission.new "projects" "read_own",
       Permission.new "documentation" "read"]

/-- All permissions of a role, direct ones plus the direct permissions of
every role it inherits from (`Role::get_permissions`). -/
def Role.get_permissions (r : Role) : List Permission :=
  r.get_direct_permissions ++ (r.get_inherited_roles.map Role.get_direct_permissions).flatten

/-- Context for permission checking (`struct PermissionContext`); `Uuid`
embedded as `Nat`. -/
structure PermissionContext where
  user_id : Nat
  resource_owner_id : Option Nat
  project_owner_id : Option Nat
  environment : Option String
  ip_address : String
deriving DecidableEq, Repr

/-- Evaluation of one `(key, value)` condition entry against the context:
the body of the `for (key, value) in conditions` loop of
`Permission::matches`, as the boolean "this entry does not force an early
`return false`". -/
def condCheck (ctx : PermissionContext) (key value : String) : Bool :=
  if key = "owner" then
    if value = "self" then decide (ctx.resource_owner_id = some ctx.user_id) else true
  else if key = "project_owner" then
    if value = "self" then decide (ctx.project_owner_id = some ctx.user_id) else true
  else if key = "environment" then
    decide (ctx.environment = some value)
  else
    false

/-- `Permission::matches`: resource and action must be equal, and every
condition of the required permission must pass `condCheck` (an unknown
condition key fails closed). -/
def Permission.matches (held required : Permission) (ctx : PermissionContext) : Bool :=
  if held.resource = required.resource ∧ held.action = required.action then
    match required.conditions with
    | none => true
    | some conds => conds.all fun kv => condCheck ctx kv.1 kv.2
  else
    false

/-- A user's assigned roles, custom grants and explicit denials
(`struct UserRoles`). -/
structure UserRoles where
  user_id : Nat
  roles : List Role
  custom_permissions : List Permission
  denied_permissions : List Permission
deriving DecidableEq, Repr

/-- `UserRoles::has_permission`: denials first, then custom permissions,
then role-derived permissions. -/
def UserRoles.has_permission (ur : UserRoles) (required : Permission)
    (ctx : PermissionContext) : Bool :=
  if ur.denied_permissions.any fun d => d.matches required ctx then
    false
  else if ur.custom_permissions.any fun p => p.matches required ctx then
    true
  else
    ur.roles.any fun r => r.get_permissions.any fun p => p.matches required ctx

/-! ### Rate limiter, from `src/core/rate_limit.rs`

Instants are `Nat` seconds; every stored timestamp is at or before `now`,
so Rust's `now.duration_since(t)` is truncated subtraction `now - t`.
The per-key state is passed explicitly (the Rust code keeps it in a mutex-
guarded map indexed by IP). -/

/-- `struct RateLimitConfig` (window size in seconds). -/
structure RateLimitConfig where
  requests_per_minute : Nat
  burst_size : Nat
  window_size : Nat
deriving DecidableEq, Repr

/-- `struct RateLimitState` for a single key. -/
structure RateLimitState where
  requests : List Nat
  blocked_until : Option Nat
deriving DecidableEq, Repr

/-- `enum RateLimitError` (durations in seconds). -/
inductive RateLimitError where
  | ExceededLimit (requests_made limit retry_after : Nat)
  | BurstExceeded (burst_count burst_limit : Nat)
  | Blocked (retry_after : Nat)
deriving DecidableEq, Repr

/-- The body of `RateLimiter::check_rate_limit` after the blocked-state check
has passed: prune the window, test the per-minute limit, test the burst
limit, then record the request. -/
def checkWindow (cfg : RateLimitConfig) (st : RateLimitState) (now : Nat) :
    Except RateLimitError Unit × RateLimitState :=
  let pruned := st.requests.filter fun t => now - t < cfg.window_size
  if pruned.length ≥ cfg.requests_per_minute then
    (Except.error (.ExceededLimit pruned.length cfg.requests_per_minute 300),
     { requests := pruned, blocked_until := some (now + 300) })
  else
    let recent := (pruned.filter fun t => now - t < 10).length
    if recent ≥ cfg.burst_size then
      (Except.error (.BurstExceeded recent cfg.burst_size),
       { requests := pruned, blocked_until := none })
    else
      (Except.ok (), { requests := pruned ++ [now], blocked_until := none })

/-- `RateLimiter::check_rate_limit` for one key: if a block is active, reject
with `Blocked`; if it expired, clear it; then run the window logic. -/
def check_rate_limit (cfg : RateLimitConfig) (st : RateLimitState) (now : Nat) :
    Except RateLimitError Unit × RateLimitState :=
  match st.blocked_until with
  | some b =>
      if now < b then
        (Except.error (.Blocked (b - now)), st)
      else
        checkWindow cfg { st with blocked_until := none } now
  | none => checkWindow cfg st now

/-! ### Account security, from `src/core/security.rs`

`DateTime<Utc>` instants and `chrono::Duration` lock durations are embedded
as integer minutes; `record_failed_attempt` takes the current instant `now`
explicitly in place of `Utc::now()`. -/

/-- The fields of `struct AccountSecurity` the security service reads or
writes. -/
structure AccountSecurity where
  failed_attempts : Int
  last_failed_attempt : Option Int
  locked_until : Option Int
  lock_reason : Option String
  last_successful_login : Option Int
  login_count : Int
  suspicious_activity_score : Int
  suspicious_ips : List String
  password_last_changed : Int
  password_history_hashes : List String
  updated_at : Int
deriving DecidableEq, Repr

/-- `AccountSecurity::new` at creation instant `now`: all counters zero,
empty history. -/
def AccountSecurity.new (now : Int) : AccountSecurity :=
  { failed_attempts := 0
    last_failed_attempt := none
    locked_until := none
    lock_reason := none
    last_successful_login := none
    login_count := 0
    suspicious_activity_score := 0
    suspicious_ips := []
    password_last_changed := now
    password_history_hashes := []
    updated_at := now }

/-- `struct SecurityConfig` (lockout duration in minutes). -/
structure SecurityConfig where
  max_failed_attempts : Int
  lockout_duration_minutes : Int
  progressive_lockout : Bool
  password_history_count : Nat
deriving DecidableEq, Repr

/-- `impl Default for SecurityConfig`. -/
def SecurityConfig.default : SecurityConfig :=
  { max_failed_attempts := 5
    lockout_duration_minutes := 30
    progressive_lockout := true
    password_history_count := 12 }

/-- `enum SecurityAction` (lock duration in minutes). -/
inductive SecurityAction where
  | AccountLocked (duration : Int) (reason : String)
  | IncrementFailures (current_count max_attempts : Int)
deriving DecidableEq, Repr

/-- The lock duration carried by an `AccountLocked` action, if any. -/
def SecurityAction.lockMinutes : SecurityAction → Option Int
  | .AccountLocked d _ => some d
  | .IncrementFailures _ _ => none

/-- `AccountSecurityService::record_failed_attempt`: increment the failure
counter, flag the IP as suspicious once the counter reaches 3, and lock the
account (progressively when configured) once the counter reaches the
maximum. -/
def record_failed_attempt (cfg : SecurityConfig) (sec : AccountSecurity)
    (ip : String) (now : Int) : AccountSecurity × SecurityAction :=
  let sec1 := { sec with
    failed_attempts := sec.failed_attempts + 1
    last_failed_attempt := some now
    updated_at := now }
  let sec2 :=
    if sec1.failed_attempts ≥ 3 ∧ ip ∉ sec1.suspicious_ips then
      { sec1 with
        suspicious_ips := sec1.suspicious_ips ++ [ip]
        suspicious_activity_score := sec1.suspicious_activity_score + 10 }
    else
      sec1
  if sec2.failed_attempts ≥ cfg.max_failed_attempts then
    let lock_duration :=
      if cfg.progressive_lockout then
        cfg.lockout_duration_minutes * (sec2.failed_attempts - cfg.max_failed_attempts + 1)
      else
        cfg.lockout_duration_minutes
    let reason := "Account locked due to " ++ toString sec2.failed_attempts ++
      " consecutive failed login attempts"
    ({ sec2 with locked_until := some (now + lock_duration), lock_reason := some reason },
     SecurityAction.AccountLocked lock_duration reason)
  else
    (sec2, SecurityAction.IncrementFailures sec2.failed_attempts cfg.max_failed_attempts)

/-- `AccountSecurityService::record_successful_login`: reset the failure
counter, forget the IP and decay the suspicion score (floored at 0). -/
def record_successful_login (sec : AccountSecurity) (ip : String) (now : Int) :
    AccountSecurity :=
  { sec with
    failed_attempts := 0
    last_failed_attempt := none
    last_successful_login := some now
    login_count := sec.login_count + 1
    updated_at := now
    suspicious_ips := sec.suspicious_ips.filter fun x => x ≠ ip
    suspicious_activity_score := max (sec.suspicious_activity_score - 5) 0 }

/-- `AccountSecurityService::can_use_password`: a hash may be used iff it is
absent from the password history. -/
def can_use_password (sec : AccountSecurity) (hash : String) : Bool :=
  !(sec.password_history_hashes.contains hash)

/-- `AccountSecurityService::record_password_change`: the new hash is
inserted at the front only when the history is already non-empty, the
history is truncated to `password_history_count`, and failure/lock state is
cleared. -/
def record_password_change (cfg : SecurityConfig) (sec : AccountSecurity)
    (new_password_hash : String) (now : Int) : AccountSecurity :=
  let hist :=
    if sec.password_history_hashes ≠ [] then
      new_password_hash :: sec.password_history_hashes
    else
      sec.password_history_hashes
  { sec with
    password_history_hashes := hist.take cfg.password_history_count
    password_last_changed := now
    updated_at := now
    failed_attempts := 0
    locked_until := none
    lock_reason := none }

/-- Test harness: the account state after `n` consecutive failed login
attempts from `ip`, all recorded at instant `now`. -/
def failStreak (cfg : SecurityConfig) (sec : AccountSecurity) (ip : String)
    (now : Int) : Nat → AccountSecurity
  | 0 => sec
  | n + 1 => (record_failed_attempt cfg (failStreak cfg sec ip now n) ip now).1

/-! ### Role inheritance as a relation -/

/-- One edge of the role-inheritance relation: `r'` appears in
`r.get_inherited_roles`. -/
def roleStep (r r' : Role) : Prop := r' ∈ r.get_inherited_roles

instance (r r' : Role) : Decidable (roleStep r r') :=
  inferInstanceAs (Decidable (r' ∈ r.get_inherited_roles))

instance : Fintype Role where
  elems := ⟨↑[Role.SuperAdmin, Role.Admin, Role.Developer, Role.ReadOnly,
              Role.Support, Role.Auditor], by decide⟩
  complete := fun x => by cases x <;> decide

/-! ### Theorems -/

/-- One condition entry passes `condCheck` exactly when it is a recognized
key whose predicate holds in the context. -/
theorem condCheck_iff (ctx : PermissionContext) (k v : String) :
    condCheck ctx k v = true ↔
      (k = "owner" ∧ (v = "self" → ctx.resource_owner_id = some ctx.user_id)) ∨
      (k = "project_owner" ∧ (v = "self" → ctx.project_owner_id = some ctx.user_id)) ∨
      (k = "environment" ∧ ctx.environment = some v) := by
  unfold condCheck
  split_ifs with h1 h2 h3 h4 h5 <;> simp_all

/-- C2: `Permission::matches` holds iff resource and action agree and every
required condition is a recognized key satisfied by the context: `owner=self`
requires `resource_owner_id = some actor`, `project_owner=self` requires
`project_owner_id = some actor`, `environment=v` requires `environment =
some v`, and any unrecognized key makes the match fail (fail-closed). -/
theorem matches_iff_conditions_hold (held required : Permission)
    (ctx : PermissionContext) :
    held.matches required ctx = true ↔
      held.resource = required.resource ∧ held.action = required.action ∧
      ∀ kv ∈ required.conditions.getD [],
        (kv.1 = "owner" ∧ (kv.2 = "self" → ctx.resource_owner_id = some ctx.user_id)) ∨
        (kv.1 = "project_owner" ∧ (kv.2 = "self" → ctx.project_owner_id = some ctx.user_id)) ∨
        (kv.1 = "environment" ∧ ctx.environment = some kv.2) := by
  unfold Permission.matches
  rcases hc : required.conditions with _ | conds <;>
    split_ifs with h <;>
    simp_all [List.all_eq_true, condCheck_iff]

/-- C10: a condition whose key is `owner` or `project_owner` but whose value
is not exactly `self` is treated as satisfied without consulting the
context, so it never makes `Permission::matches` fail. -/
theorem nonself_owner_condition_ignored (held required : Permission)
    (ctx : PermissionContext) (k v : String)
    (hk : k = "owner" ∨ k = "project_owner") (hv : v ≠ "self")
    (hr : held.resource = required.resource) (ha : held.action = required.action)
    (hc : required.conditions = some [(k, v)]) :
    condCheck ctx k v = true ∧ held.matches required ctx = true := by
  have hcond : condCheck ctx k v = true := by
    rcases hk with hk | hk <;> simp [condCheck, hk, hv]
  refine ⟨hcond, ?_⟩
  unfold Permission.matches
  simp [hr, ha, hc, hcond]

/-- Witness for C10: the condition `owner=alice` passes `condCheck` in a
context with no resource owner, and a permission matches a requirement
carrying only that condition. -/
theorem nonself_owner_condition_ignored_witness :
    condCheck ⟨1, none, none, none, "127.0.0.1"⟩ "owner" "alice" = true ∧
    (Permission.new "projects" "update_own").matches
      { resource := "projects", action := "update_own",
        conditions := some [("owner", "alice")] }
      ⟨1, none, none, none, "127.0.0.1"⟩ = true :=
  nonself_owner_condition_ignored (Permission.new "projects" "update_own")
    { resource := "projects", action := "update_own",
      conditions := some [("owner", "alice")] }
    ⟨1, none, none, none, "127.0.0.1"⟩ "owner" "alice"
    (Or.inl rfl) (by decide) rfl rfl rfl

/-- C1: `UserRoles::has_permission` is denied-first: it returns true exactly
when no denied permission matches and either a custom permission or a
permission of an assigned role matches; in particular a matching denial
forces the result false even when a matching grant exists. -/
theorem has_permission_denied_first (ur : UserRoles) (required : Permission)
    (ctx : PermissionContext) :
    ur.has_permission required ctx = true ↔
      (∀ d ∈ ur.denied_permissions, d.matches required ctx = false) ∧
      ((∃ p ∈ ur.custom_permissions, p.matches required ctx = true) ∨
       (∃ r ∈ ur.roles, ∃ p ∈ r.get_permissions, p.matches required ctx = true)) := by
  unfold UserRoles.has_permission
  split_ifs with hd hc <;>
    simp_all [List.any_eq_true, Bool.not_eq_true]

/-- Every role-inheritance edge only ever adds permissions: the target
role's full permission list is contained in the source role's. -/
theorem roleStep_permissions_subset :
    ∀ r r' : Role, roleStep r r' → ∀ p ∈ r'.get_permissions, p ∈ r.get_permissions := by
  decide

/-- C3: along the reflexive-transitive closure of the role-inheritance
relation, permissions only shrink: if `R'` is reachable from `R`, every
permission of `R'` is a permission of `R`. -/
theorem reachable_role_permissions_superset (R R' : Role)
    (h : Relation.ReflTransGen roleStep R R') :
    ∀ p ∈ R'.get_permissions, p ∈ R.get_permissions := by
  induction h with
  | refl => exact fun p hp => hp
  | tail _ hstep ih =>
      exact fun p hp => ih p (roleStep_permissions_subset _ _ hstep p hp)

/-- Witness for C3 at a concrete instance: `ReadOnly` is reachable from
`Admin` in one step, so `Admin` holds `ReadOnly`'s `profile read_own`
permission. -/
theorem reachable_role_permissions_superset_witness :
    Permission.new "profile" "read_own" ∈ Role.Admin.get_permissions :=
  reachable_role_permissions_superset Role.Admin Role.ReadOnly
    (Relation.ReflTransGen.single (by decide))
    (Permission.new "profile" "read_own") (by decide)

/-- C4: whenever no block is active and the window-pruned request count has
reached `requests_per_minute`, `check_rate_limit` rejects with
`ExceededLimit` carrying the fixed 300-second block duration as
`retry_after` (whatever `window_size` is) and blocks the key until
`now + 300`; in particular with `requests_per_minute = 5`, five requests at
seconds 0–4 pass, the 6th at second 5 is rejected with `ExceededLimit` and
blocks until second 305, and the next call at second 305 passes again. -/
theorem rate_limit_exceeded_blocks_five_minutes (cfg : RateLimitConfig)
    (st : RateLimitState) (now : Nat)
    (hb : ∀ b, st.blocked_until = some b → b ≤ now)
    (hcount : cfg.requests_per_minute ≤
      (st.requests.filter fun t => now - t < cfg.window_size).length) :
    ((check_rate_limit cfg st now).1 =
       Except.error (RateLimitError.ExceededLimit
         (st.requests.filter fun t => now - t < cfg.window_size).length
         cfg.requests_per_minute 300) ∧
     (check_rate_limit cfg st now).2.blocked_until = some (now + 300)) ∧
    (let cfg5 : RateLimitConfig := ⟨5, 10, 60⟩
     let s0 : RateLimitState := ⟨[], none⟩
     let s1 := (check_rate_limit cfg5 s0 0).2
     let s2 := (check_rate_limit cfg5 s1 1).2
     let s3 := (check_rate_limit cfg5 s2 2).2
     let s4 := (check_rate_limit cfg5 s3 3).2
     let s5 := (check_rate_limit cfg5 s4 4).2
     (check_rate_limit cfg5 s0 0).1 = Except.ok () ∧
     (check_rate_limit cfg5 s1 1).1 = Except.ok () ∧
     (check_rate_limit cfg5 s2 2).1 = Except.ok () ∧
     (check_rate_limit cfg5 s3 3).1 = Except.ok () ∧
     (check_rate_limit cfg5 s4 4).1 = Except.ok () ∧
     (check_rate_limit cfg5 s5 5).1 =
       Except.error (RateLimitError.ExceededLimit 5 5 300) ∧
     (check_rate_limit cfg5 s5 5).2.blocked_until = some 305 ∧
     (check_rate_limit cfg5 (check_rate_limit cfg5 s5 5).2 305).1 = Except.ok ()) := by
  constructor
  · unfold check_rate_limit checkWindow
    cases hbu : st.blocked_until with
    | none => simp [hcount]
    | some b =>
        have hnb : ¬ now < b := not_lt.mpr (hb b hbu)
        simp [hnb, hcount]
  · exact ⟨rfl, rfl, rfl, rfl, rfl, rfl, rfl, rfl⟩

/-- Witness for C4: a key with five timestamps inside a 60-second window and
no block, checked with `requests_per_minute = 5`, is rejected with
`ExceededLimit` and blocked until `now + 300`. -/
theorem rate_limit_exceeded_blocks_five_minutes_witness :
    ((check_rate_limit ⟨5, 10, 60⟩ ⟨[10, 11, 12, 13, 14], none⟩ 20).1 =
       Except.error (RateLimitError.ExceededLimit 5 5 300) ∧
     (check_rate_limit ⟨5, 10, 60⟩ ⟨[10, 11, 12, 13, 14], none⟩ 20).2.blocked_until =
       some 320) := by
  have h := rate_limit_exceeded_blocks_five_minutes ⟨5, 10, 60⟩
    ⟨[10, 11, 12, 13, 14], none⟩ 20 (by simp) (by decide)
  exact ⟨by simpa using h.1.1, by simpa using h.1.2⟩

/-- C5: whenever no block is active, the per-minute limit is not reached,
but at least `burst_size` retained timestamps lie within the last 10
seconds, `check_rate_limit` rejects with `BurstExceeded`, does not record
the current timestamp, and sets no block; in particular with
`burst_size = 3` (per-minute limit 5), requests at seconds 0–2 pass, the
4th at second 3 is rejected with `BurstExceeded` leaving the state
unblocked with only the three old timestamps, and a request at second 11,
after the 10-second burst window slid, passes. -/
theorem burst_exceeded_rejects_without_recording (cfg : RateLimitConfig)
    (st : RateLimitState) (now : Nat)
    (hb : ∀ b, st.blocked_until = some b → b ≤ now)
    (hcount : (st.requests.filter fun t => now - t < cfg.window_size).length <
      cfg.requests_per_minute)
    (hburst : cfg.burst_size ≤
      (((st.requests.filter fun t => now - t < cfg.window_size).filter
         fun t => now - t < 10)).length) :
    ((check_rate_limit cfg st now).1 =
       Except.error (RateLimitError.BurstExceeded
         (((st.requests.filter fun t => now - t < cfg.window_size).filter
            fun t => now - t < 10)).length cfg.burst_size) ∧
     (check_rate_limit cfg st now).2.requests =
       st.requests.filter (fun t => now - t < cfg.window_size) ∧
     (check_rate_limit cfg st now).2.blocked_until = none) ∧
    (let cfgB : RateLimitConfig := ⟨5, 3, 60⟩
     let s0 : RateLimitState := ⟨[], none⟩
     let s1 := (check_rate_limit cfgB s0 0).2
     let s2 := (check_rate_limit cfgB s1 1).2
     let s3 := (check_rate_limit cfgB s2 2).2
     (check_rate_limit cfgB s0 0).1 = Except.ok () ∧
     (check_rate_limit cfgB s1 1).1 = Except.ok () ∧
     (check_rate_limit cfgB s2 2).1 = Except.ok () ∧
     (check_rate_limit cfgB s3 3).1 =
       Except.error (RateLimitError.BurstExceeded 3 3) ∧
     (check_rate_limit cfgB s3 3).2 = ⟨[0, 1, 2], none⟩ ∧
     (check_rate_limit cfgB (check_rate_limit cfgB s3 3).2 11).1 = Except.ok ()) := by
  constructor
  · have hnc : ¬ cfg.requests_per_minute ≤
        (st.requests.filter fun t => now - t < cfg.window_size).length :=
      not_le.mpr hcount
    unfold check_rate_limit checkWindow
    simp only [List.filter_filter] at hburst
    cases hbu : st.blocked_until with
    | none => simp [hnc, hburst, List.filter_filter]
    | some b =>
        have hnb : ¬ now < b := not_lt.mpr (hb b hbu)
        simp [hnb, hnc, hburst, List.filter_filter]
  · exact ⟨rfl, rfl, rfl, rfl, rfl, rfl⟩

/-- Witness for C5: a key with three timestamps in the last 10 seconds,
under the per-minute limit of 5 but at the burst limit of 3, is rejected
with `BurstExceeded`, keeps exactly its pruned timestamps, and is not
blocked. -/
theorem burst_exceeded_rejects_without_recording_witness :
    ((check_rate_limit ⟨5, 3, 60⟩ ⟨[7, 8, 9], none⟩ 10).1 =
       Except.error (RateLimitError.BurstExceeded 3 3) ∧
     (check_rate_limit ⟨5, 3, 60⟩ ⟨[7, 8, 9], none⟩ 10).2.requests = [7, 8, 9] ∧
     (check_rate_limit ⟨5, 3, 60⟩ ⟨[7, 8, 9], none⟩ 10).2.blocked_until = none) := by
  have h := burst_exceeded_rejects_without_recording ⟨5, 3, 60⟩
    ⟨[7, 8, 9], none⟩ 10 (by simp) (by decide) (by decide)
  exact ⟨by simpa using h.1.1, by simpa using h.1.2.1, by simpa using h.1.2.2⟩

/-- C6: once the incremented failure counter reaches
`max_failed_attempts`, `record_failed_attempt` locks the account for
`lockout_duration_minutes × (failed_attempts − max_failed_attempts + 1)`
minutes under progressive lockout (else the base duration), setting
`locked_until` and `lock_reason` and returning `AccountLocked` with that
duration; below the threshold it returns `IncrementFailures` with the
current count and the maximum. -/
theorem record_failed_attempt_lockout (cfg : SecurityConfig)
    (sec : AccountSecurity) (ip : String) (now : Int) :
    (sec.failed_attempts + 1 ≥ cfg.max_failed_attempts →
      (record_failed_attempt cfg sec ip now).2 =
        SecurityAction.AccountLocked
          (if cfg.progressive_lockout then
            cfg.lockout_duration_minutes *
              (sec.failed_attempts + 1 - cfg.max_failed_attempts + 1)
          else cfg.lockout_duration_minutes)
          ("Account locked due to " ++ toString (sec.failed_attempts + 1) ++
            " consecutive failed login attempts") ∧
      (record_failed_attempt cfg sec ip now).1.locked_until =
        some (now +
          (if cfg.progressive_lockout then
            cfg.lockout_duration_minutes *
              (sec.failed_attempts + 1 - cfg.max_failed_attempts + 1)
          else cfg.lockout_duration_minutes)) ∧
      (record_failed_attempt cfg sec ip now).1.lock_reason =
        some ("Account locked due to " ++ toString (sec.failed_attempts + 1) ++
          " consecutive failed login attempts")) ∧
    (sec.failed_attempts + 1 < cfg.max_failed_attempts →
      (record_failed_attempt cfg sec ip now).2 =
        SecurityAction.IncrementFailures (sec.failed_attempts + 1)
          cfg.max_failed_attempts) := by
  unfold record_failed_attempt
  dsimp only
  constructor <;> intro h <;> split_ifs <;> simp_all <;> omega

/-- Witness for C6: a fresh account at its 5th failure under the default
configuration is locked for 30 minutes, and at its 1st failure only gets
`IncrementFailures`. -/
theorem record_failed_attempt_lockout_witness :
    ((record_failed_attempt SecurityConfig.default
        { AccountSecurity.new 0 with failed_attempts := 4 } "1.2.3.4" 0).2 =
      SecurityAction.AccountLocked 30
        "Account locked due to 5 consecutive failed login attempts") ∧
    ((record_failed_attempt SecurityConfig.default
        (AccountSecurity.new 0) "1.2.3.4" 0).2 =
      SecurityAction.IncrementFailures 1 5) := by
  constructor
  · have h := (record_failed_attempt_lockout SecurityConfig.default
      { AccountSecurity.new 0 with failed_attempts := 4 } "1.2.3.4" 0).1 (by decide)
    have he := h.1
    norm_num [SecurityConfig.default, AccountSecurity.new] at he
    exact he
  · have h := (record_failed_attempt_lockout SecurityConfig.default
      (AccountSecurity.new 0) "1.2.3.4" 0).2 (by decide)
    norm_num [SecurityConfig.default, AccountSecurity.new] at h
    exact h

/-- C7 fails on the code: with the default configuration
(`max_failed_attempts = 5`, progressive, base 30 minutes) the account is
first locked on the 5th failed attempt, and the 6th failed attempt locks it
for 60 minutes, not the 30 minutes the claim asserts (and at
`failed_attempts = 7` the lock is 90 minutes, not 60). -/
theorem sixth_failure_locks_sixty_minutes :
    let cfg := SecurityConfig.default
    let s1 := (record_failed_attempt cfg (AccountSecurity.new 0) "ip" 0).1
    let s2 := (record_failed_attempt cfg s1 "ip" 0).1
    let s3 := (record_failed_attempt cfg s2 "ip" 0).1
    let s4 := (record_failed_attempt cfg s3 "ip" 0).1
    let s5 := (record_failed_attempt cfg s4 "ip" 0).1
    let s6 := (record_failed_attempt cfg s5 "ip" 0).1
    (record_failed_attempt cfg s5 "ip" 0).2.lockMinutes = some 60 ∧
    ¬ (record_failed_attempt cfg s5 "ip" 0).2.lockMinutes = some 30 ∧
    (record_failed_attempt cfg s6 "ip" 0).2.lockMinutes = some 90 ∧
    ¬ (record_failed_attempt cfg s6 "ip" 0).2.lockMinutes = some 60 := by
  decide

/-- C7 amended: with the default configuration the 5th consecutive failed
attempt triggers the first lockout, for 30 minutes; the 6th failed attempt
(`failed_attempts = 6`) locks for 60 minutes; the lockout at
`failed_attempts = 7` is for 90 minutes. -/
theorem progressive_lockout_thirty_then_sixty :
    (record_failed_attempt SecurityConfig.default
      (failStreak SecurityConfig.default (AccountSecurity.new 0) "ip" 0 4)
      "ip" 0).2.lockMinutes = some 30 ∧
    (record_failed_attempt SecurityConfig.default
      (failStreak SecurityConfig.default (AccountSecurity.new 0) "ip" 0 5)
      "ip" 0).2.lockMinutes = some 60 ∧
    (record_failed_attempt SecurityConfig.default
      (failStreak SecurityConfig.default (AccountSecurity.new 0) "ip" 0 6)
      "ip" 0).2.lockMinutes = some 90 := by
  decide

/-- C8 fails on the code: `record_password_change` only prepends the new
hash when the history is already non-empty, so a fresh account's history
stays empty after a password change (the claim requires it to become
`[new_hash]`) and the just-set password immediately passes
`can_use_password` again. -/
theorem password_change_on_empty_history_records_nothing :
    (record_password_change SecurityConfig.default (AccountSecurity.new 0)
      "hash1" 1).password_history_hashes = [] ∧
    can_use_password
      (record_password_change SecurityConfig.default (AccountSecurity.new 0)
        "hash1" 1) "hash1" = true := by
  decide

/-- C9 fails on the code: the suspicious-IP update is gated on the
consecutive-failure counter (`failed_attempts ≥ 3`), not on the number of
distinct failing IPs. After failures from `1.1.1.1` and `2.2.2.2`, a
successful login resets the counter, so a failure from the 3rd distinct IP
`3.3.3.3` is not added to `suspicious_ips` and the score stays 0. -/
theorem third_distinct_ip_not_flagged :
    let cfg := SecurityConfig.default
    let s1 := (record_failed_attempt cfg (AccountSecurity.new 0) "1.1.1.1" 0).1
    let s2 := (record_failed_attempt cfg s1 "2.2.2.2" 0).1
    let s3 := record_successful_login s2 "9.9.9.9" 0
    let s4 := (record_failed_attempt cfg s3 "3.3.3.3" 0).1
    s4.suspicious_ips = [] ∧ s4.suspicious_activity_score = 0 := by
  decide

/-- C9 amended: on a failed attempt, once the incremented failure counter
is at least 3 and the failing IP is not yet recorded,
`record_failed_attempt` appends the IP to `suspicious_ips` and raises
`suspicious_activity_score` by 10. -/
theorem suspicious_ip_flagged_after_three_failures (cfg : SecurityConfig)
    (sec : AccountSecurity) (ip : String) (now : Int)
    (h3 : sec.failed_attempts + 1 ≥ 3) (hip : ip ∉ sec.suspicious_ips) :
    (record_failed_attempt cfg sec ip now).1.suspicious_ips =
      sec.suspicious_ips ++ [ip] ∧
    (record_failed_attempt cfg sec ip now).1.suspicious_activity_score =
      sec.suspicious_activity_score + 10 := by
  unfold record_failed_attempt
  dsimp only
  split_ifs <;> simp_all

/-- Witness for the amended C9: an account with two prior failures and no
recorded IPs gets `5.5.5.5` appended and score 10 on its 3rd failure. -/
theorem suspicious_ip_flagged_after_three_failures_witness :
    (record_failed_attempt SecurityConfig.default
      { AccountSecurity.new 0 with failed_attempts := 2 } "5.5.5.5" 0).1.suspicious_ips =
      ["5.5.5.5"] ∧
    (record_failed_attempt SecurityConfig.default
      { AccountSecurity.new 0 with failed_attempts := 2 } "5.5.5.5" 0).1.suspicious_activity_score =
      10 := by
  have h := suspicious_ip_flagged_after_three_failures SecurityConfig.default
    { AccountSecurity.new 0 with failed_attempts := 2 } "5.5.5.5" 0
    (by decide) (by decide)
  constructor
  · have h1 := h.1
    norm_num [AccountSecurity.new] at h1
    exact h1
  · have h2 := h.2
    norm_num [AccountSecurity.new] at h2
    exact h2

end OpenBank
